import Mathlib

/-!
Verification of the cost-aware response cache of the perplexity-mcp-server
repository: a shallow embedding of `src/services/cache/index.ts`
(key derivation, `get`, `set`, `clear`, `cleanup`, stats ledger) and of
`calculatePerplexityCost` from
`src/mcp-server/tools/perplexitySearch/logic.ts` (pricing table and cost
formula), together with theorems settling the specification's claims.

Modelling conventions: timestamps (`Date.now()`) are `Nat` milliseconds;
JavaScript numbers holding counters are `Int`; USD amounts are `ℚ` (the
claims never depend on binary floating-point rounding: all quantities
involved have short exact decimal expansions, and `toFixed(6)` is modelled
as rounding to 6 decimal places over `ℚ`). File-system and JSON-parse
failures are injected through explicit fault records, one per operation,
mirroring exactly the `try`/`catch` structure of the source; a `true`
flag means the corresponding `await` throws at that point.
-/

/-! ## JSON values and `JSON.stringify`

`generateKey` hashes `JSON.stringify({ query, params })`.  `JSON.stringify`
serialises object fields in insertion order, so the parameter map is
modelled as an association list.  String escaping covers the quote and
backslash characters (sufficient for the inputs considered here). -/

inductive JsonValue where
  | jstr (s : String)
  | jnum (n : Int)
  | jbool (b : Bool)
  | jarr (xs : List JsonValue)
  | jobj (fields : List (String × JsonValue))

def escChar (c : Char) : String :=
  if c = '"' then "\\\"" else if c = '\\' then "\\\\" else String.singleton c

def escapeString (s : String) : String :=
  String.join (s.toList.map escChar)

mutual

def stringifyJson : JsonValue → String
  | .jstr s => "\"" ++ escapeString s ++ "\""
  | .jnum n => toString n
  | .jbool b => if b then "true" else "false"
  | .jarr xs => "[" ++ stringifyArr xs ++ "]"
  | .jobj fs => "\x7b" ++ stringifyFields fs ++ "\x7d"

def stringifyArr : List JsonValue → String
  | [] => ""
  | [x] => stringifyJson x
  | x :: y :: rest => stringifyJson x ++ "," ++ stringifyArr (y :: rest)

def stringifyFields : List (String × JsonValue) → String
  | [] => ""
  | [(k, v)] => "\"" ++ escapeString k ++ "\":" ++ stringifyJson v
  | (k, v) :: f :: rest =>
      "\"" ++ escapeString k ++ "\":" ++ stringifyJson v ++ ","
        ++ stringifyFields (f :: rest)

end

namespace CacheService

/-- The string fed to SHA-256 by `generateKey`:
`JSON.stringify({ query, params })`. -/
def keyPayload (query : String) (params : List (String × JsonValue)) : String :=
  stringifyJson (JsonValue.jobj
    [("query", JsonValue.jstr query), ("params", JsonValue.jobj params)])

/-- Model of `generateKey(query, params)`: SHA-256 hex digest of the serialised
payload.  The digest function itself is an oracle parameter `hash`; every
property proved below holds for an arbitrary digest function. -/
def generateKey (hash : String → String) (query : String)
    (params : List (String × JsonValue)) : String :=
  hash (keyPayload query params)

/-- On-disk cache entry (`CacheEntry` interface of the source). -/
structure CacheEntry (α : Type) where
  key : String
  query : String
  params : List (String × JsonValue)
  response : α
  timestamp : Nat
  expiresAt : Nat
  hits : Nat
  modelUsed : String
  processingTime : Nat

/-- Persisted aggregate counters (`CacheStats` interface of the source). -/
structure CacheStats where
  totalEntries : Int
  totalHits : Int
  totalMisses : Int
  totalSaved : Int
  oldestEntry : Int
  newestEntry : Int
  estimatedCostSavings : ℚ
deriving DecidableEq

/-- The constructor's fresh stats record (all counters zero,
`oldestEntry`/`newestEntry` set to the current time); also what `clear`
resets to. -/
def freshStats (now : Nat) : CacheStats :=
  { totalEntries := 0, totalHits := 0, totalMisses := 0, totalSaved := 0
    oldestEntry := (now : Int), newestEntry := (now : Int)
    estimatedCostSavings := 0 }

/-- Cache directory plus in-memory service state: the entry files (one
JSON file per key, modelled as an association list in directory order),
the persisted `stats.json` (absent until first written), and the
in-memory stats mirror. -/
structure CacheState (α : Type) where
  entries : List (String × CacheEntry α)
  statsFile : Option CacheStats
  stats : CacheStats

/-- Read the entry file named `k.json`, if present. -/
def findEntry (k : String) : List (String × CacheEntry α) → Option (CacheEntry α)
  | [] => none
  | (k', e) :: rest => if k' = k then some e else findEntry k rest

/-- Write an entry file (`fs.writeFile`): overwrite in place, or create. -/
def updateEntry (k : String) (e : CacheEntry α) :
    List (String × CacheEntry α) → List (String × CacheEntry α)
  | [] => [(k, e)]
  | (k', e') :: rest =>
      if k' = k then (k, e) :: rest else (k', e') :: updateEntry k e rest

/-- Model of `saveStats()`: write the in-memory stats to `stats.json`; its internal
`try`/`catch` means a write failure (flag `fails = true`) leaves the file
as it was and never propagates. -/
def saveStats (fails : Bool) (st : CacheState α) : CacheState α :=
  if fails then st else { st with statsFile := some st.stats }

/-- Fault points of one `get` call: the entry-file read throwing, the
`JSON.parse` throwing, the hit-count rewrite throwing, and the
`saveStats` write failing. -/
structure GetFaults where
  readFails : Bool
  parseFails : Bool
  writeFails : Bool
  statsWriteFails : Bool

def noGetFaults : GetFaults :=
  { readFails := false, parseFails := false, writeFails := false
    statsWriteFails := false }

/-- The `catch` block of `get`: count a miss, persist stats, return `null`. -/
def getMissPath (flt : GetFaults) (st : CacheState α) : Option α × CacheState α :=
  (none, saveStats flt.statsWriteFails
    { st with stats := { st.stats with totalMisses := st.stats.totalMisses + 1 } })

/-- Model of `get(query, params)` at time `now`.  Missing file, read fault or parse
fault lands in the `catch` (a miss).  A present, expired entry counts a
miss and is left on disk.  A live entry has its `hits` incremented and
rewritten (a fault there also lands in the `catch`), then a hit and the
fixed $0.013 savings increment are recorded and the response returned. -/
def get (hash : String → String) (flt : GetFaults) (query : String)
    (params : List (String × JsonValue)) (now : Nat) (st : CacheState α) :
    Option α × CacheState α :=
  let key := generateKey hash query params
  match findEntry key st.entries with
  | none => getMissPath flt st
  | some entry =>
    if flt.readFails || flt.parseFails then getMissPath flt st
    else if now > entry.expiresAt then
      (none, saveStats flt.statsWriteFails
        { st with stats :=
            { st.stats with totalMisses := st.stats.totalMisses + 1 } })
    else if flt.writeFails then getMissPath flt st
    else
      let entry' := { entry with hits := entry.hits + 1 }
      let st :=
        { st with
            entries := updateEntry key entry' st.entries
            stats :=
              { st.stats with
                  totalHits := st.stats.totalHits + 1
                  estimatedCostSavings :=
                    st.stats.estimatedCostSavings + 13 / 1000 } }
      (some entry'.response, saveStats flt.statsWriteFails st)

/-- Fault points of one `set` call: the entry write throwing and the
`saveStats` write failing. -/
structure SetFaults where
  writeFails : Bool
  statsWriteFails : Bool

def noSetFaults : SetFaults := { writeFails := false, statsWriteFails := false }

/-- Model of `set(query, params, response, modelUsed, processingTime)` at time
`now`, with TTL `ttlHours`.  Builds a fresh entry (`hits = 0`,
`expiresAt = now + ttlHours·3600000`) and overwrites any entry under the
same key; on success increments `totalEntries`/`totalSaved` and stamps
`newestEntry`; a write fault lands in the `catch` and leaves everything
unchanged. -/
def set (hash : String → String) (flt : SetFaults) (query : String)
    (params : List (String × JsonValue)) (response : α) (modelUsed : String)
    (processingTime : Nat) (ttlHours : Nat) (now : Nat) (st : CacheState α) :
    CacheState α :=
  let key := generateKey hash query params
  let entry : CacheEntry α :=
    { key := key, query := query, params := params, response := response
      timestamp := now, expiresAt := now + ttlHours * 60 * 60 * 1000
      hits := 0, modelUsed := modelUsed, processingTime := processingTime }
  if flt.writeFails then st
  else
    saveStats flt.statsWriteFails
      { st with
          entries := updateEntry key entry st.entries
          stats :=
            { st.stats with
                totalEntries := st.stats.totalEntries + 1
                totalSaved := st.stats.totalSaved + 1
                newestEntry := (now : Int) } }

/-- Fault points of one `clear` call: the `readdir` throwing, each
per-file `unlink` throwing, and the `saveStats` write failing. -/
structure ClearFaults where
  readdirFails : Bool
  unlinkFails : String → Bool
  statsWriteFails : Bool

def noClearFaults : ClearFaults :=
  { readdirFails := false, unlinkFails := fun _ => false
    statsWriteFails := false }

/-- The unlink loop of `clear`: delete entry files in directory order
until done or until an `unlink` throws.  Returns the remaining files and
whether the loop completed. -/
def clearLoop (unlinkFails : String → Bool) :
    List (String × CacheEntry α) → List (String × CacheEntry α) × Bool
  | [] => ([], true)
  | (k, e) :: rest =>
      if unlinkFails k then ((k, e) :: rest, false)
      else clearLoop unlinkFails rest

/-- Model of `clear()` at time `now`: delete every entry file (never `stats.json`),
then reset all stats counters to zero and persist.  A `readdir` fault
aborts immediately; an `unlink` fault aborts the loop mid-way and — the
reset living after the loop inside the same `try` — leaves the stats
unreset. -/
def clear (flt : ClearFaults) (now : Nat) (st : CacheState α) : CacheState α :=
  if flt.readdirFails then st
  else
    let r := clearLoop flt.unlinkFails st.entries
    if r.2 then
      saveStats flt.statsWriteFails
        { st with entries := r.1, stats := freshStats now }
    else { st with entries := r.1 }

/-- Fault points of one `cleanup` call: the `readdir` throwing, and the
per-file read, parse and unlink throwing, plus the `saveStats` write
failing. -/
structure CleanupFaults where
  readdirFails : Bool
  readFails : String → Bool
  parseFails : String → Bool
  unlinkFails : String → Bool
  statsWriteFails : Bool

def noCleanupFaults : CleanupFaults :=
  { readdirFails := false, readFails := fun _ => false
    parseFails := fun _ => false, unlinkFails := fun _ => false
    statsWriteFails := false }

/-- The scan loop of `cleanup`: in directory order, read and parse each
entry file and unlink it when `now > expiresAt`; any throw aborts the
loop (files already unlinked stay unlinked).  Returns the remaining
files, the number unlinked, and whether the loop completed. -/
def cleanupLoop (flt : CleanupFaults) (now : Nat) :
    List (String × CacheEntry α) → List (String × CacheEntry α) × Nat × Bool
  | [] => ([], 0, true)
  | (k, e) :: rest =>
      if flt.readFails k || flt.parseFails k then ((k, e) :: rest, 0, false)
      else if now > e.expiresAt then
        if flt.unlinkFails k then ((k, e) :: rest, 0, false)
        else
          let r := cleanupLoop flt now rest
          (r.1, r.2.1 + 1, r.2.2)
      else
        let r := cleanupLoop flt now rest
        ((k, e) :: r.1, r.2.1, r.2.2)

/-- Model of `cleanup()` at time `now`: scan all entry files, unlink the expired
ones, and — only when the loop completed and removed at least one —
subtract the removed count from `totalEntries` and persist stats.  The
accumulated count is returned in every case, a mid-loop throw landing in
the `catch` right before `return cleaned`. -/
def cleanup (flt : CleanupFaults) (now : Nat) (st : CacheState α) :
    Nat × CacheState α :=
  if flt.readdirFails then (0, st)
  else
    let r := cleanupLoop flt now st.entries
    let st' := { st with entries := r.1 }
    if r.2.2 then
      if r.2.1 > 0 then
        (r.2.1, saveStats flt.statsWriteFails
          { st' with stats :=
              { st'.stats with
                  totalEntries := st'.stats.totalEntries - (r.2.1 : Int) } })
      else (r.2.1, st')
    else (r.2.1, st')

end CacheService

/-! ## Cost estimator

Shallow embedding of `calculatePerplexityCost` and its static pricing
sheet from `src/mcp-server/tools/perplexitySearch/logic.ts`.  JavaScript
truthiness of an optional number (`x && y`) is `present and nonzero`;
`toFixed(6)` followed by `parseFloat` is modelled as rounding to six
decimal places over `ℚ`. -/

namespace CostEstimator

def PER_MILLION : ℚ := 1000000

def PER_THOUSAND : ℚ := 1000

/-- Floor of a rational, computed on its reduced fraction. -/
def floorQ (q : ℚ) : ℤ := Int.fdiv q.num (q.den : ℤ)

/-- Model of `Number.prototype.toFixed(6)` then `parseFloat`: round to 6 decimal
places (half up; no claim exercises a tie). -/
def round6 (q : ℚ) : ℚ := (floorQ (q * 1000000 + 1 / 2) : ℚ) / 1000000

inductive ApiTier where
  | high
  | medium
  | low
deriving DecidableEq

/-- Per-million token rates of one pricing row. -/
structure TokenPricing where
  input : ℚ
  output : ℚ
  reasoning : Option ℚ := none
  citation : Option ℚ := none
deriving DecidableEq

/-- Tier map `Partial Record<ApiTier, number>`: per-1000-requests fee by tier. -/
structure TierFees where
  low : Option ℚ := none
  medium : Option ℚ := none
  high : Option ℚ := none
deriving DecidableEq

def TierFees.lookup (f : TierFees) : ApiTier → Option ℚ
  | .low => f.low
  | .medium => f.medium
  | .high => f.high

/-- Action fees of one pricing row (`requestFee` is unused by the sheet
but present in the interface). -/
structure ActionPricing where
  requestFee : Option ℚ := none
  searchQueryFee : Option ℚ := none
  requestFeesByTier : Option TierFees := none
deriving DecidableEq

structure ModelPricing where
  tokenPricing : TokenPricing
  actionPricing : ActionPricing
deriving DecidableEq

/-- The static `modelPricingSheet` table. -/
def modelPricingSheet : String → Option ModelPricing
  | "sonar" => some
      { tokenPricing := { input := 1, output := 1 }
        actionPricing :=
          { requestFeesByTier := some { low := some 5, medium := some 8, high := some 12 } } }
  | "sonar-pro" => some
      { tokenPricing := { input := 3, output := 15 }
        actionPricing :=
          { requestFeesByTier := some { low := some 6, medium := some 10, high := some 14 } } }
  | "sonar-reasoning" => some
      { tokenPricing := { input := 1, output := 5 }
        actionPricing :=
          { requestFeesByTier := some { low := some 5, medium := some 8, high := some 12 } } }
  | "sonar-reasoning-pro" => some
      { tokenPricing := { input := 2, output := 8 }
        actionPricing :=
          { requestFeesByTier := some { low := some 6, medium := some 10, high := some 14 } } }
  | "sonar-deep-research" => some
      { tokenPricing :=
          { input := 2, output := 8, citation := some 2, reasoning := some 3 }
        actionPricing := { searchQueryFee := some 5 } }
  | _ => none

/-- Usage counters from the API response (`UsageData` interface). -/
structure UsageData where
  prompt_tokens : Nat
  completion_tokens : Nat
  total_tokens : Nat
  reasoning_tokens : Option Nat := none
  citation_tokens : Option Nat := none
  search_queries : Option Nat := none
deriving DecidableEq

/-- JavaScript truthiness of an optional numeric rate. -/
def truthyQ : Option ℚ → Bool
  | none => false
  | some q => decide (q ≠ 0)

/-- JavaScript truthiness of an optional token count. -/
def truthyN : Option Nat → Bool
  | none => false
  | some n => decide (n ≠ 0)

/-- Events `calculatePerplexityCost` sends to the logger. -/
inductive CostLog where
  | errorUnknownModel
  | warnTierNotFound
  | debugCalculated
deriving DecidableEq

/-- Token-cost accumulation (step 1 of the function body): prompt and
completion always, reasoning and citation when both the rate and the
usage field are truthy. -/
def tokenCost (tp : TokenPricing) (u : UsageData) : ℚ :=
  let cost := (u.prompt_tokens : ℚ) / PER_MILLION * tp.input
      + (u.completion_tokens : ℚ) / PER_MILLION * tp.output
  let cost :=
    if truthyQ tp.reasoning && truthyN u.reasoning_tokens then
      cost + ((u.reasoning_tokens.getD 0 : ℚ) / PER_MILLION) * tp.reasoning.getD 0
    else cost
  if truthyQ tp.citation && truthyN u.citation_tokens then
    cost + ((u.citation_tokens.getD 0 : ℚ) / PER_MILLION) * tp.citation.getD 0
  else cost

/-- Tier-fee branch (`actionPricing.requestFeesByTier && apiTier`): the
fee added and the warning emitted when the supplied tier has no fee. -/
def tierFee (ap : ActionPricing) (apiTier : Option ApiTier) : ℚ × List CostLog :=
  match ap.requestFeesByTier, apiTier with
  | some fees, some tier =>
    match fees.lookup tier with
    | some fee => (fee / PER_THOUSAND, [])
    | none => (0, [CostLog.warnTierNotFound])
  | _, _ => (0, [])

/-- Flat search-query fee branch
(`actionPricing.searchQueryFee && usage.search_queries`). -/
def searchFeeCost (ap : ActionPricing) (u : UsageData) : ℚ :=
  if truthyQ ap.searchQueryFee && truthyN u.search_queries then
    ((u.search_queries.getD 0 : ℚ) / PER_THOUSAND) * ap.searchQueryFee.getD 0
  else 0

/-- The body of `calculatePerplexityCost` after the successful pricing
lookup: token costs, then the tier fee (possibly warning), then the
search-query fee, a debug log, and rounding to six decimals. -/
def calcWithPricing (pricing : ModelPricing) (u : UsageData)
    (apiTier : Option ApiTier) : Option ℚ × List CostLog :=
  let c := tokenCost pricing.tokenPricing u
  let tf := tierFee pricing.actionPricing apiTier
  let c := c + tf.1 + searchFeeCost pricing.actionPricing u
  (some (round6 c), tf.2 ++ [CostLog.debugCalculated])

/-- Model of `calculatePerplexityCost(model, usage, apiTier)`: `null` plus an error
log for an unknown model, otherwise the computed cost. -/
def calculatePerplexityCost (model : String) (u : UsageData)
    (apiTier : Option ApiTier) : Option ℚ × List CostLog :=
  match modelPricingSheet model with
  | none => (none, [CostLog.errorUnknownModel])
  | some pricing => calcWithPricing pricing u apiTier

/-- The specification's cost formula, written from the spec's words
(§4.4 steps 2–6): base token cost, plus reasoning/citation components
whenever the row defines the rate and the usage field is present, plus
the tier fee when supplied and present in the map, plus the flat
search-query fee when defined and the count present, rounded to six
decimals. -/
def specCost (pricing : ModelPricing) (u : UsageData)
    (apiTier : Option ApiTier) : ℚ :=
  let base := (u.prompt_tokens : ℚ) / 1000000 * pricing.tokenPricing.input
      + (u.completion_tokens : ℚ) / 1000000 * pricing.tokenPricing.output
  let reasonPart :=
    match pricing.tokenPricing.reasoning, u.reasoning_tokens with
    | some r, some n => (n : ℚ) / 1000000 * r
    | _, _ => 0
  let citePart :=
    match pricing.tokenPricing.citation, u.citation_tokens with
    | some r, some n => (n : ℚ) / 1000000 * r
    | _, _ => 0
  let feePart :=
    match pricing.actionPricing.requestFeesByTier, apiTier with
    | some fees, some t =>
      match fees.lookup t with
      | some fee => fee / 1000
      | none => 0
    | _, _ => 0
  let searchPart :=
    match pricing.actionPricing.searchQueryFee, u.search_queries with
    | some fee, some n => (n : ℚ) / 1000 * fee
    | _, _ => 0
  base + reasonPart + citePart + feePart + searchPart

/-! ### Decomposition lemmas for the cost function -/

/-- The function `floorQ` agrees with the mathematical floor. -/
lemma floorQ_eq_floor (q : ℚ) : floorQ q = Int.floor q := by
  unfold floorQ
  rw [Int.fdiv_eq_ediv _ (Int.natCast_nonneg _), Rat.floor_def]

/-- An optional token-cost component computed with JavaScript truthiness
equals the spec's presence-based component: the cases they treat
differently (rate or count equal to zero) both contribute zero. -/
lemma optPart_eq (rate : Option ℚ) (tok : Option Nat) :
    (if truthyQ rate && truthyN tok then
      ((tok.getD 0 : ℚ) / PER_MILLION) * rate.getD 0
    else 0)
    = match rate, tok with
      | some r, some n => (n : ℚ) / 1000000 * r
      | _, _ => 0 := by
  cases rate with
  | none => simp [truthyQ]
  | some r =>
    cases tok with
    | none => simp [truthyQ, truthyN]
    | some n =>
      by_cases hr : r = 0
      · by_cases hn : n = 0 <;>
          simp [truthyQ, truthyN, hr, hn, PER_MILLION]
      · by_cases hn : n = 0 <;>
          simp [truthyQ, truthyN, hr, hn, PER_MILLION]

lemma tokenCost_eq (tp : TokenPricing) (u : UsageData) :
    tokenCost tp u
      = (u.prompt_tokens : ℚ) / 1000000 * tp.input
        + (u.completion_tokens : ℚ) / 1000000 * tp.output
        + (match tp.reasoning, u.reasoning_tokens with
           | some r, some n => (n : ℚ) / 1000000 * r
           | _, _ => 0)
        + (match tp.citation, u.citation_tokens with
           | some r, some n => (n : ℚ) / 1000000 * r
           | _, _ => 0) := by
  rw [← optPart_eq tp.reasoning u.reasoning_tokens,
      ← optPart_eq tp.citation u.citation_tokens]
  unfold tokenCost
  simp only [PER_MILLION]
  split <;> split <;> ring

lemma searchFeeCost_eq (ap : ActionPricing) (u : UsageData) :
    searchFeeCost ap u
      = match ap.searchQueryFee, u.search_queries with
        | some fee, some n => (n : ℚ) / 1000 * fee
        | _, _ => 0 := by
  unfold searchFeeCost
  cases hf : ap.searchQueryFee with
  | none => simp [truthyQ]
  | some fee =>
    cases hn : u.search_queries with
    | none => simp [truthyQ, truthyN]
    | some n =>
      by_cases hfz : fee = 0
      · by_cases hnz : n = 0 <;>
          simp [truthyQ, truthyN, hfz, hnz, PER_THOUSAND]
      · by_cases hnz : n = 0 <;>
          simp [truthyQ, truthyN, hfz, hnz, PER_THOUSAND]

lemma tierFee_fst_eq (ap : ActionPricing) (apiTier : Option ApiTier) :
    (tierFee ap apiTier).1
      = match ap.requestFeesByTier, apiTier with
        | some fees, some t =>
          (match fees.lookup t with
           | some fee => fee / 1000
           | none => 0)
        | _, _ => 0 := by
  unfold tierFee
  cases ap.requestFeesByTier with
  | none => cases apiTier <;> rfl
  | some fees =>
    cases apiTier with
    | none => rfl
    | some t =>
      rcases hl : fees.lookup t with _ | fee <;> simp [hl, PER_THOUSAND]

end CostEstimator

open CostEstimator in
/-- C5: for every model in the pricing sheet, `calculatePerplexityCost`
returns exactly the specification's formula — prompt and completion token
costs, the reasoning/citation components when defined and present, the
tier or search-query fee the row defines — rounded to six decimal
places.  The witness checks the spec's concrete instance: model `sonar`,
one million prompt tokens, zero completion tokens, tier `low`, giving
exactly `1.005`. -/
theorem cost_matches_spec_formula (model : String) (pricing : ModelPricing)
    (u : UsageData) (apiTier : Option ApiTier)
    (h : modelPricingSheet model = some pricing) :
    (calculatePerplexityCost model u apiTier).1
      = some (round6 (specCost pricing u apiTier)) := by
  unfold calculatePerplexityCost
  rw [h]
  unfold calcWithPricing specCost
  simp only
  congr 1
  rw [tokenCost_eq, searchFeeCost_eq, tierFee_fst_eq]

/-- Witness for C5 at the spec's concrete instance:
`sonar`, 1 000 000 prompt tokens, 0 completion tokens, tier `low`
costs exactly `1.005 = 201/200` dollars. -/
theorem cost_matches_spec_formula_witness :
    (CostEstimator.calculatePerplexityCost "sonar"
        { prompt_tokens := 1000000, completion_tokens := 0
          total_tokens := 1000000 }
        (some CostEstimator.ApiTier.low)).1 = some (201 / 200 : ℚ) := by
  have h := cost_matches_spec_formula "sonar"
    { tokenPricing := { input := 1, output := 1 }
      actionPricing :=
        { requestFeesByTier :=
            some { low := some 5, medium := some 8, high := some 12 } } }
    { prompt_tokens := 1000000, completion_tokens := 0
      total_tokens := 1000000 }
    (some CostEstimator.ApiTier.low) (by decide)
  rw [h]
  norm_num [CostEstimator.round6, CostEstimator.floorQ_eq_floor,
    CostEstimator.specCost, CostEstimator.TierFees.lookup]

open CostEstimator in
/-- C6: for every model name absent from the pricing sheet,
`calculatePerplexityCost` logs the missing model and returns `null`;
this is the only outcome for an unknown model, and the call never
throws (the function is total). -/
theorem unknown_model_returns_null (model : String) (u : UsageData)
    (apiTier : Option ApiTier) (h : modelPricingSheet model = none) :
    calculatePerplexityCost model u apiTier
      = (none, [CostLog.errorUnknownModel]) := by
  unfold calculatePerplexityCost
  rw [h]

/-- Witness for C6 at the spec's concrete instance `'not-a-model'`. -/
theorem unknown_model_returns_null_witness :
    CostEstimator.calculatePerplexityCost "not-a-model"
        { prompt_tokens := 5, completion_tokens := 5, total_tokens := 10 }
        (some CostEstimator.ApiTier.low)
      = (none, [CostEstimator.CostLog.errorUnknownModel]) :=
  unknown_model_returns_null "not-a-model"
    { prompt_tokens := 5, completion_tokens := 5, total_tokens := 10 }
    (some CostEstimator.ApiTier.low) (by decide)

/-- C7 counterexample: the claim asserts that when the tier argument is
missing (undefined/null) a warning is logged; but on
`calculatePerplexityCost("sonar", usage, null)` the guard
`requestFeesByTier && apiTier` is simply false, so the fee branch is
skipped silently — no warning appears among the emitted log events. -/
theorem missing_tier_logs_no_warning :
    CostEstimator.CostLog.warnTierNotFound ∉
      (CostEstimator.calculatePerplexityCost "sonar"
        { prompt_tokens := 1000000, completion_tokens := 0
          total_tokens := 1000000 } none).2 := by
  decide

open CostEstimator in
/-- C7 (amended): for every pricing row with tiered request fees, a
supplied tier present in the map adds `feePer1000 / 1000` to the cost; a
supplied tier absent from the map omits the fee and logs a warning; a
missing (undefined/null) tier omits the fee silently, with no warning;
in every case the call succeeds with a numeric cost.  The last conjunct
ties the row-level function to `calculatePerplexityCost`. -/
theorem tier_fee_behavior_amended (pricing : ModelPricing) (fees : TierFees)
    (u : UsageData) (hfees : pricing.actionPricing.requestFeesByTier = some fees) :
    (∀ t fee, fees.lookup t = some fee →
      calcWithPricing pricing u (some t)
        = (some (round6 (tokenCost pricing.tokenPricing u + fee / 1000
            + searchFeeCost pricing.actionPricing u)),
           [CostLog.debugCalculated]))
    ∧ (∀ t, fees.lookup t = none →
      calcWithPricing pricing u (some t)
        = (some (round6 (tokenCost pricing.tokenPricing u
            + searchFeeCost pricing.actionPricing u)),
           [CostLog.warnTierNotFound, CostLog.debugCalculated]))
    ∧ (calcWithPricing pricing u none
        = (some (round6 (tokenCost pricing.tokenPricing u
            + searchFeeCost pricing.actionPricing u)),
           [CostLog.debugCalculated]))
    ∧ (∀ model t, modelPricingSheet model = some pricing →
        calculatePerplexityCost model u t = calcWithPricing pricing u t) := by
  refine ⟨?_, ?_, ?_, ?_⟩
  · intro t fee hl
    unfold calcWithPricing tierFee
    simp [hfees, hl, PER_THOUSAND]
  · intro t hl
    unfold calcWithPricing tierFee
    simp [hfees, hl]
  · unfold calcWithPricing tierFee
    simp [hfees]
  · intro model t hm
    unfold calculatePerplexityCost
    rw [hm]

/-- Witness for C7 (amended) on a concrete row whose tier map holds only
a `low` fee: the three branches produce exactly the predicted costs and
log events. -/
theorem tier_fee_behavior_amended_witness :
    (CostEstimator.calcWithPricing
        { tokenPricing := { input := 1, output := 1 }
          actionPricing := { requestFeesByTier := some { low := some 5 } } }
        { prompt_tokens := 1000000, completion_tokens := 0
          total_tokens := 1000000 }
        (some CostEstimator.ApiTier.low)).2
      = [CostEstimator.CostLog.debugCalculated]
    ∧ (CostEstimator.calcWithPricing
        { tokenPricing := { input := 1, output := 1 }
          actionPricing := { requestFeesByTier := some { low := some 5 } } }
        { prompt_tokens := 1000000, completion_tokens := 0
          total_tokens := 1000000 }
        (some CostEstimator.ApiTier.medium)).2
      = [CostEstimator.CostLog.warnTierNotFound,
         CostEstimator.CostLog.debugCalculated]
    ∧ (CostEstimator.calcWithPricing
        { tokenPricing := { input := 1, output := 1 }
          actionPricing := { requestFeesByTier := some { low := some 5 } } }
        { prompt_tokens := 1000000, completion_tokens := 0
          total_tokens := 1000000 }
        none).2
      = [CostEstimator.CostLog.debugCalculated] := by
  have h := tier_fee_behavior_amended
    { tokenPricing := { input := 1, output := 1 }
      actionPricing := { requestFeesByTier := some { low := some 5 } } }
    { low := some 5 }
    { prompt_tokens := 1000000, completion_tokens := 0
      total_tokens := 1000000 } rfl
  refine ⟨?_, ?_, ?_⟩
  · rw [h.1 CostEstimator.ApiTier.low 5 rfl]
  · rw [h.2.1 CostEstimator.ApiTier.medium rfl]
  · rw [h.2.2.1]

/-- C8 (a code bug relative to the spec's contract): the key payload fed
to SHA-256 is `JSON.stringify({query, params})` with fields in insertion
order — not a canonical serialisation — so two parameter maps with
exactly the same bindings in different insertion order produce different
hash inputs (and, for any injective digest such as the identity shown
here, different fingerprints). -/
theorem key_payload_order_sensitive :
    [("a", JsonValue.jnum 1), ("b", JsonValue.jnum 2)].Perm
      [("b", JsonValue.jnum 2), ("a", JsonValue.jnum 1)]
    ∧ CacheService.keyPayload "q" [("a", JsonValue.jnum 1), ("b", JsonValue.jnum 2)]
      ≠ CacheService.keyPayload "q" [("b", JsonValue.jnum 2), ("a", JsonValue.jnum 1)]
    ∧ CacheService.generateKey id "q" [("a", JsonValue.jnum 1), ("b", JsonValue.jnum 2)]
      ≠ CacheService.generateKey id "q" [("b", JsonValue.jnum 2), ("a", JsonValue.jnum 1)] :=
  ⟨List.Perm.swap _ _ _, by decide, by decide⟩

/-! ## Helper lemmas on the cache store -/

namespace CacheService

variable {α : Type}

lemma saveStats_stats (b : Bool) (st : CacheState α) :
    (saveStats b st).stats = st.stats := by
  unfold saveStats
  split <;> rfl

lemma saveStats_entries (b : Bool) (st : CacheState α) :
    (saveStats b st).entries = st.entries := by
  unfold saveStats
  split <;> rfl

lemma findEntry_updateEntry (k : String) (e : CacheEntry α)
    (l : List (String × CacheEntry α)) :
    findEntry k (updateEntry k e l) = some e := by
  induction l with
  | nil => simp [updateEntry, findEntry]
  | cons hd tl ih =>
    by_cases hk : hd.1 = k
    · simp [updateEntry, hk, findEntry]
    · simp [updateEntry, hk, findEntry, ih]

lemma clearLoop_noFaults (l : List (String × CacheEntry α)) :
    clearLoop (fun _ => false) l = ([], true) := by
  induction l with
  | nil => rfl
  | cons hd tl ih => simpa [clearLoop] using ih

lemma cleanupLoop_noFaults (now : Nat) (l : List (String × CacheEntry α)) :
    cleanupLoop noCleanupFaults now l
      = (l.filter (fun p => !decide (now > p.2.expiresAt)),
         l.countP (fun p => decide (now > p.2.expiresAt)), true) := by
  induction l with
  | nil => rfl
  | cons hd tl ih =>
    simp only [noCleanupFaults] at ih ⊢
    by_cases hx : now > hd.2.expiresAt
    · simp [cleanupLoop, hx, ih, List.countP_cons, List.filter]
    · simp [cleanupLoop, hx, ih, List.countP_cons, List.filter]

lemma cleanupLoop_len (flt : CleanupFaults) (now : Nat)
    (l : List (String × CacheEntry α)) :
    ((cleanupLoop flt now l).1).length + (cleanupLoop flt now l).2.1
      = l.length := by
  induction l with
  | nil => rfl
  | cons hd tl ih =>
    unfold cleanupLoop
    by_cases hrp : (flt.readFails hd.1 || flt.parseFails hd.1) = true
    · simp [hrp]
    · by_cases hx : now > hd.2.expiresAt
      · by_cases hu : flt.unlinkFails hd.1 = true
        · simp [hrp, hx, hu]
        · simp only [hrp, hx, hu, Bool.false_eq_true, if_false, if_true,
            List.length_cons]
          omega
      · simp only [hrp, hx, Bool.false_eq_true, if_false, if_true,
          List.length_cons]
        omega

lemma findEntry_none_of_not_mem (k : String)
    (l : List (String × CacheEntry α)) (h : k ∉ l.map Prod.fst) :
    findEntry k l = none := by
  induction l with
  | nil => rfl
  | cons hd tl ih =>
    simp only [List.map_cons, List.mem_cons, not_or] at h
    simp [findEntry, Ne.symm h.1, ih h.2]

lemma findEntry_filter_none (k : String) (e : CacheEntry α)
    (p : String × CacheEntry α → Bool) (l : List (String × CacheEntry α))
    (hnd : (l.map Prod.fst).Nodup) (hf : findEntry k l = some e)
    (hp : p (k, e) = false) :
    findEntry k (l.filter p) = none := by
  induction l with
  | nil => simp [findEntry] at hf
  | cons hd tl ih =>
    simp only [List.map_cons, List.nodup_cons] at hnd
    by_cases hk : hd.1 = k
    · have he : hd.2 = e := by
        simp [findEntry, hk] at hf
        exact hf
      have hdk : hd = (k, e) := by
        cases hd
        simp_all
      subst hdk
      rw [List.filter_cons_of_neg (by simp [hp])]
      refine findEntry_none_of_not_mem k _ ?_
      intro hmem
      exact hnd.1 (((List.filter_sublist tl).map Prod.fst).subset hmem)
    · have hf' : findEntry k tl = some e := by
        simpa [findEntry, hk] using hf
      by_cases hphd : p hd = true
      · rw [List.filter_cons_of_pos hphd]
        simp [findEntry, hk]
        exact ih hnd.2 hf'
      · rw [List.filter_cons_of_neg (by simp [hphd])]
        exact ih hnd.2 hf'

end CacheService

open CacheService in
/-- C2: `set(q, p, r, m, t)` immediately followed by `get(q, p)` at any
time before the TTL elapses returns `r` unchanged, and the entry
persisted on disk after the `get` carries hit counter `1`.  Stated for an
arbitrary digest function, query, parameter map, response, prior state
and times. -/
theorem set_then_get_roundtrip (hash : String → String) (q : String)
    (params : List (String × JsonValue)) (r : α) (m : String)
    (pt ttl now1 now2 : Nat) (st : CacheState α)
    (h : now2 ≤ now1 + ttl * 60 * 60 * 1000) :
    (get hash noGetFaults q params now2
        (set hash noSetFaults q params r m pt ttl now1 st)).1 = some r
    ∧ (findEntry (generateKey hash q params)
          ((get hash noGetFaults q params now2
            (set hash noSetFaults q params r m pt ttl now1 st)).2).entries).map
        (fun e => (e.hits, e.response))
      = some (1, r) := by
  have hng : ¬ (now1 + ttl * 60 * 60 * 1000 < now2) := not_lt.mpr h
  constructor
  · simp [CacheService.set, CacheService.get, noSetFaults, noGetFaults,
      saveStats_entries, findEntry_updateEntry, hng]
  · simp [CacheService.set, CacheService.get, noSetFaults, noGetFaults,
      saveStats_entries, findEntry_updateEntry, hng]

/-- Witness for C2 at a concrete instantiation: identity digest, empty
parameter map, response `7`, TTL 24 hours, `set` at time 0 and `get` at
time 1000. -/
theorem set_then_get_roundtrip_witness :
    (CacheService.get id CacheService.noGetFaults "q" [] 1000
        (CacheService.set id CacheService.noSetFaults "q" [] (7 : Int) "sonar"
          5 24 0 { entries := [], statsFile := none
                   stats := CacheService.freshStats 0 })).1 = some 7
    ∧ (CacheService.findEntry (CacheService.generateKey id "q" [])
          ((CacheService.get id CacheService.noGetFaults "q" [] 1000
            (CacheService.set id CacheService.noSetFaults "q" [] (7 : Int)
              "sonar" 5 24 0 { entries := [], statsFile := none
                               stats := CacheService.freshStats 0 })).2).entries).map
        (fun e => (e.hits, e.response))
      = some (1, 7) :=
  set_then_get_roundtrip id "q" [] 7 "sonar" 5 24 0 1000
    { entries := [], statsFile := none, stats := CacheService.freshStats 0 }
    (by norm_num)

open CacheService in
/-- C10: `set` on a key that already holds an entry (with any accumulated
hit count) writes a fresh entry whose `hits` field is `0`; the previous
count is discarded, and a subsequent in-TTL `get` therefore persists hit
count `1` no matter how many hits the overwritten entry had. -/
theorem set_overwrites_resets_hits (hash : String → String) (q : String)
    (params : List (String × JsonValue)) (r : α) (m : String)
    (pt ttl now1 now2 : Nat) (st : CacheState α) (e0 : CacheEntry α)
    (hprev : findEntry (generateKey hash q params) st.entries = some e0)
    (h : now2 ≤ now1 + ttl * 60 * 60 * 1000) :
    (findEntry (generateKey hash q params)
        (set hash noSetFaults q params r m pt ttl now1 st).entries).map
      (fun e => e.hits) = some 0
    ∧ (findEntry (generateKey hash q params)
        ((get hash noGetFaults q params now2
          (set hash noSetFaults q params r m pt ttl now1 st)).2).entries).map
      (fun e => e.hits) = some 1 := by
  have hng : ¬ (now1 + ttl * 60 * 60 * 1000 < now2) := not_lt.mpr h
  constructor
  · simp [CacheService.set, noSetFaults, saveStats_entries, findEntry_updateEntry]
  · simp [CacheService.set, CacheService.get, noSetFaults, noGetFaults,
      saveStats_entries, findEntry_updateEntry, hng]

/-- Witness for C10: a state already holding an entry with 41 accumulated
hits under the key of `("q", [])`; after `set` the stored entry has
`hits = 0`, and after the subsequent `get` it has `hits = 1`. -/
theorem set_overwrites_resets_hits_witness :
    (CacheService.findEntry (CacheService.generateKey id "q" [])
        (CacheService.set id CacheService.noSetFaults "q" [] (7 : Int) "sonar"
          5 24 100
          { entries := [(CacheService.generateKey id "q" [],
              { key := CacheService.generateKey id "q" [], query := "q"
                params := [], response := (3 : Int), timestamp := 0
                expiresAt := 999999, hits := 41, modelUsed := "sonar"
                processingTime := 9 })]
            statsFile := none, stats := CacheService.freshStats 0 }).entries).map
      (fun e => e.hits) = some 0
    ∧ (CacheService.findEntry (CacheService.generateKey id "q" [])
        ((CacheService.get id CacheService.noGetFaults "q" [] 200
          (CacheService.set id CacheService.noSetFaults "q" [] (7 : Int)
            "sonar" 5 24 100
            { entries := [(CacheService.generateKey id "q" [],
                { key := CacheService.generateKey id "q" [], query := "q"
                  params := [], response := (3 : Int), timestamp := 0
                  expiresAt := 999999, hits := 41, modelUsed := "sonar"
                  processingTime := 9 })]
              statsFile := none, stats := CacheService.freshStats 0 })).2).entries).map
      (fun e => e.hits) = some 1 :=
  set_overwrites_resets_hits id "q" [] 7 "sonar" 5 24 100 200
    { entries := [(CacheService.generateKey id "q" [],
        { key := CacheService.generateKey id "q" [], query := "q"
          params := [], response := (3 : Int), timestamp := 0
          expiresAt := 999999, hits := 41, modelUsed := "sonar"
          processingTime := 9 })]
      statsFile := none, stats := CacheService.freshStats 0 }
    { key := CacheService.generateKey id "q" [], query := "q"
      params := [], response := (3 : Int), timestamp := 0
      expiresAt := 999999, hits := 41, modelUsed := "sonar"
      processingTime := 9 }
    (by simp [CacheService.findEntry]) (by norm_num)

open CacheService in
/-- C3: a `get` that finds an entry whose `expiresAt` lies strictly in
the past returns `null`, increments `totalMisses` (not `totalHits`), and
leaves every entry file on disk untouched; the expired entry's storage
is reclaimed by a later `cleanup` call (stated for any later time
`now'`; key uniqueness of the on-disk files is the `Nodup` hypothesis). -/
theorem expired_get_is_miss_preserves_file (hash : String → String)
    (q : String) (params : List (String × JsonValue)) (now now' : Nat)
    (st : CacheState α) (e : CacheEntry α)
    (hfind : findEntry (generateKey hash q params) st.entries = some e)
    (hexp : now > e.expiresAt) (hle : now ≤ now')
    (hnd : (st.entries.map Prod.fst).Nodup) :
    (get hash noGetFaults q params now st).1 = none
    ∧ ((get hash noGetFaults q params now st).2).stats.totalMisses
        = st.stats.totalMisses + 1
    ∧ ((get hash noGetFaults q params now st).2).stats.totalHits
        = st.stats.totalHits
    ∧ ((get hash noGetFaults q params now st).2).entries = st.entries
    ∧ findEntry (generateKey hash q params)
        (((cleanup noCleanupFaults now' st).2).entries) = none := by
  have hent : (((cleanup noCleanupFaults now' st).2).entries)
      = st.entries.filter (fun p => !decide (now' > p.2.expiresAt)) := by
    unfold cleanup
    rw [cleanupLoop_noFaults]
    simp only [noCleanupFaults, Bool.false_eq_true, if_false]
    split <;> (try split) <;> simp [saveStats_entries]
  refine ⟨?_, ?_, ?_, ?_, ?_⟩
  · simp [CacheService.get, noGetFaults, hfind, hexp]
  · simp [CacheService.get, noGetFaults, hfind, hexp, saveStats_stats]
  · simp [CacheService.get, noGetFaults, hfind, hexp, saveStats_stats]
  · simp [CacheService.get, noGetFaults, hfind, hexp, saveStats_entries]
  · rw [hent]
    exact findEntry_filter_none _ e _ _ hnd hfind
      (by simp [lt_of_lt_of_le hexp hle])

/-- Witness for C3: one entry expired at time 5, read at time 10: the
`get` misses (misses 0 → 1, hits untouched), the file survives the
`get`, and a `cleanup` at time 12 reclaims it. -/
theorem expired_get_is_miss_preserves_file_witness :
    (CacheService.get id CacheService.noGetFaults "q" [] 10
        { entries := [(CacheService.generateKey id "q" [],
            { key := CacheService.generateKey id "q" [], query := "q"
              params := [], response := (3 : Int), timestamp := 0
              expiresAt := 5, hits := 0, modelUsed := "sonar"
              processingTime := 9 })]
          statsFile := none, stats := CacheService.freshStats 0 }).1 = none
    ∧ ((CacheService.get id CacheService.noGetFaults "q" [] 10
        { entries := [(CacheService.generateKey id "q" [],
            { key := CacheService.generateKey id "q" [], query := "q"
              params := [], response := (3 : Int), timestamp := 0
              expiresAt := 5, hits := 0, modelUsed := "sonar"
              processingTime := 9 })]
          statsFile := none
          stats := CacheService.freshStats 0 }).2).stats.totalMisses
      = (CacheService.freshStats 0).totalMisses + 1
    ∧ ((CacheService.get id CacheService.noGetFaults "q" [] 10
        { entries := [(CacheService.generateKey id "q" [],
            { key := CacheService.generateKey id "q" [], query := "q"
              params := [], response := (3 : Int), timestamp := 0
              expiresAt := 5, hits := 0, modelUsed := "sonar"
              processingTime := 9 })]
          statsFile := none
          stats := CacheService.freshStats 0 }).2).stats.totalHits
      = (CacheService.freshStats 0).totalHits
    ∧ ((CacheService.get id CacheService.noGetFaults "q" [] 10
        { entries := [(CacheService.generateKey id "q" [],
            { key := CacheService.generateKey id "q" [], query := "q"
              params := [], response := (3 : Int), timestamp := 0
              expiresAt := 5, hits := 0, modelUsed := "sonar"
              processingTime := 9 })]
          statsFile := none, stats := CacheService.freshStats 0 }).2).entries
      = [(CacheService.generateKey id "q" [],
          { key := CacheService.generateKey id "q" [], query := "q"
            params := [], response := (3 : Int), timestamp := 0
            expiresAt := 5, hits := 0, modelUsed := "sonar"
            processingTime := 9 })]
    ∧ CacheService.findEntry (CacheService.generateKey id "q" [])
        (((CacheService.cleanup CacheService.noCleanupFaults 12
          { entries := [(CacheService.generateKey id "q" [],
              { key := CacheService.generateKey id "q" [], query := "q"
                params := [], response := (3 : Int), timestamp := 0
                expiresAt := 5, hits := 0, modelUsed := "sonar"
                processingTime := 9 })]
            statsFile := none
            stats := CacheService.freshStats 0 }).2).entries) = none :=
  expired_get_is_miss_preserves_file id "q" [] 10 12
    { entries := [(CacheService.generateKey id "q" [],
        { key := CacheService.generateKey id "q" [], query := "q"
          params := [], response := (3 : Int), timestamp := 0
          expiresAt := 5, hits := 0, modelUsed := "sonar"
          processingTime := 9 })]
      statsFile := none, stats := CacheService.freshStats 0 }
    { key := CacheService.generateKey id "q" [], query := "q"
      params := [], response := (3 : Int), timestamp := 0
      expiresAt := 5, hits := 0, modelUsed := "sonar"
      processingTime := 9 }
    (by simp [CacheService.findEntry]) (by norm_num) (by norm_num)
    (by simp)

open CacheService in
/-- C4: a fault-free `cleanup` at time `now` removes exactly the entry
files with `expiresAt < now`, leaves the other entry files in place,
decrements `totalEntries` by the removed count (all other stats fields
unchanged), returns exactly that count, and rewrites — never deletes —
`stats.json` (only when something was removed). -/
theorem cleanup_removes_exactly_expired (now : Nat) (st : CacheState α) :
    (cleanup noCleanupFaults now st).1
      = st.entries.countP (fun p => decide (now > p.2.expiresAt))
    ∧ ((cleanup noCleanupFaults now st).2).entries
      = st.entries.filter (fun p => !decide (now > p.2.expiresAt))
    ∧ ((cleanup noCleanupFaults now st).2).stats.totalEntries
      = st.stats.totalEntries - ((cleanup noCleanupFaults now st).1 : Int)
    ∧ ((cleanup noCleanupFaults now st).2).stats.totalHits
      = st.stats.totalHits
    ∧ ((cleanup noCleanupFaults now st).2).stats.totalMisses
      = st.stats.totalMisses
    ∧ ((cleanup noCleanupFaults now st).2).stats.totalSaved
      = st.stats.totalSaved
    ∧ ((cleanup noCleanupFaults now st).2).stats.estimatedCostSavings
      = st.stats.estimatedCostSavings
    ∧ ((cleanup noCleanupFaults now st).2).statsFile
      = (if 0 < (cleanup noCleanupFaults now st).1
         then some (((cleanup noCleanupFaults now st).2).stats)
         else st.statsFile) := by
  unfold cleanup
  rw [cleanupLoop_noFaults]
  simp only [noCleanupFaults, Bool.false_eq_true, if_false, if_true]
  split
  · simp [saveStats_stats, saveStats_entries, saveStats]
  · rename_i hc
    simp only [not_lt, Nat.le_zero] at hc
    simp [hc]

/-! ### Case lemmas describing each operation's effect on the stats -/

namespace CacheService

variable {α : Type}

/-- A `get` either records a miss or records a hit plus the fixed
savings increment; nothing else ever happens to the stats. -/
lemma get_stats_cases (hash : String → String) (flt : GetFaults) (q : String)
    (params : List (String × JsonValue)) (now : Nat) (st : CacheState α) :
    ((get hash flt q params now st).2).stats
      = { st.stats with totalMisses := st.stats.totalMisses + 1 }
    ∨ ((get hash flt q params now st).2).stats
      = { st.stats with
          totalHits := st.stats.totalHits + 1
          estimatedCostSavings := st.stats.estimatedCostSavings + 13 / 1000 } := by
  unfold get getMissPath
  rcases hfe : findEntry (generateKey hash q params) st.entries with _ | entry
  · left
    simp [hfe, saveStats_stats]
  · by_cases h1 : (flt.readFails || flt.parseFails) = true
    · left
      simp [hfe, h1, saveStats_stats]
    · by_cases h2 : now > entry.expiresAt
      · left
        simp [hfe, h1, h2, saveStats_stats]
      · by_cases h3 : flt.writeFails = true
        · left
          simp [hfe, h1, h2, h3, saveStats_stats]
        · right
          simp [hfe, h1, h2, h3, saveStats_stats]

/-- A `set` either fails (stats unchanged) or increments
`totalEntries`/`totalSaved` and stamps `newestEntry`. -/
lemma set_stats_cases (hash : String → String) (flt : SetFaults) (q : String)
    (params : List (String × JsonValue)) (r : α) (m : String)
    (pt ttl now : Nat) (st : CacheState α) :
    (set hash flt q params r m pt ttl now st).stats = st.stats
    ∨ (set hash flt q params r m pt ttl now st).stats
      = { st.stats with
          totalEntries := st.stats.totalEntries + 1
          totalSaved := st.stats.totalSaved + 1
          newestEntry := (now : Int) } := by
  unfold set
  by_cases hw : flt.writeFails = true
  · left
    simp [hw]
  · right
    simp [hw, saveStats_stats]

/-- A `cleanup` either leaves the stats unchanged or only lowers
`totalEntries` by the removed count. -/
lemma cleanup_stats_cases (flt : CleanupFaults) (now : Nat) (st : CacheState α) :
    ((cleanup flt now st).2).stats = st.stats
    ∨ ((cleanup flt now st).2).stats
      = { st.stats with
          totalEntries :=
            st.stats.totalEntries - ((cleanup flt now st).1 : Int) } := by
  unfold cleanup
  by_cases hr : flt.readdirFails = true
  · left
    simp [hr]
  · simp only [hr, Bool.false_eq_true, if_false]
    split
    · split
      · right
        simp [saveStats_stats]
      · left
        rfl
    · left
      rfl

end CacheService

open CacheService in
/-- C9 counterexample: the claim that every `CacheStats` counter is
monotonically non-decreasing across each operation fails for
`totalEntries` and `cleanup`: on a state holding one expired entry and
`totalEntries = 1`, `cleanup` at time 10 lowers `totalEntries` to 0. -/
theorem cleanup_decrements_totalEntries :
    ((CacheService.cleanup CacheService.noCleanupFaults 10
        { entries := [("k",
            { key := "k", query := "q", params := [], response := (0 : Int),
              timestamp := 0, expiresAt := 5, hits := 0, modelUsed := "sonar",
              processingTime := 0 })],
          statsFile := none,
          stats := { totalEntries := 1, totalHits := 0, totalMisses := 0,
                     totalSaved := 1, oldestEntry := 0, newestEntry := 0,
                     estimatedCostSavings := 0 } }).2).stats.totalEntries
      < ({ totalEntries := 1, totalHits := 0, totalMisses := 0,
           totalSaved := 1, oldestEntry := 0, newestEntry := 0,
           estimatedCostSavings := 0 } : CacheStats).totalEntries := by
  decide

open CacheService in
/-- C9 (amended): across every `get` and `set` (with or without injected
faults) `totalHits`, `totalMisses`, `totalSaved` and
`estimatedCostSavings` never decrease and the remaining counters only
grow; `cleanup` leaves all counters unchanged except `totalEntries`,
which a fault-free `cleanup` decrements by exactly the removed count;
and a fault-free `clear` resets all counters to zero. -/
theorem stats_monotonicity_amended {α : Type} :
    (∀ (hash : String → String) (flt : GetFaults) (q : String)
        (params : List (String × JsonValue)) (now : Nat) (st : CacheState α),
        st.stats.totalHits ≤ ((get hash flt q params now st).2).stats.totalHits
      ∧ st.stats.totalMisses
          ≤ ((get hash flt q params now st).2).stats.totalMisses
      ∧ ((get hash flt q params now st).2).stats.totalSaved
          = st.stats.totalSaved
      ∧ st.stats.estimatedCostSavings
          ≤ ((get hash flt q params now st).2).stats.estimatedCostSavings
      ∧ ((get hash flt q params now st).2).stats.totalEntries
          = st.stats.totalEntries)
    ∧ (∀ (hash : String → String) (flt : SetFaults) (q : String)
        (params : List (String × JsonValue)) (r : α) (m : String)
        (pt ttl now : Nat) (st : CacheState α),
        st.stats.totalEntries
          ≤ (set hash flt q params r m pt ttl now st).stats.totalEntries
      ∧ st.stats.totalSaved
          ≤ (set hash flt q params r m pt ttl now st).stats.totalSaved
      ∧ (set hash flt q params r m pt ttl now st).stats.totalHits
          = st.stats.totalHits
      ∧ (set hash flt q params r m pt ttl now st).stats.totalMisses
          = st.stats.totalMisses
      ∧ (set hash flt q params r m pt ttl now st).stats.estimatedCostSavings
          = st.stats.estimatedCostSavings)
    ∧ (∀ (flt : CleanupFaults) (now : Nat) (st : CacheState α),
        ((cleanup flt now st).2).stats.totalHits = st.stats.totalHits
      ∧ ((cleanup flt now st).2).stats.totalMisses = st.stats.totalMisses
      ∧ ((cleanup flt now st).2).stats.totalSaved = st.stats.totalSaved
      ∧ ((cleanup flt now st).2).stats.estimatedCostSavings
          = st.stats.estimatedCostSavings)
    ∧ (∀ (now : Nat) (st : CacheState α),
        ((cleanup noCleanupFaults now st).2).stats.totalEntries
          = st.stats.totalEntries - ((cleanup noCleanupFaults now st).1 : Int))
    ∧ (∀ (now : Nat) (st : CacheState α),
        (clear noClearFaults now st).stats = freshStats now) := by
  refine ⟨?_, ?_, ?_, ?_, ?_⟩
  · intro hash flt q params now st
    rcases get_stats_cases hash flt q params now st with h | h <;>
      rw [h] <;>
      refine ⟨?_, ?_, rfl, ?_, rfl⟩ <;>
      simp <;>
      norm_num
  · intro hash flt q params r m pt ttl now st
    rcases set_stats_cases hash flt q params r m pt ttl now st with h | h <;>
      rw [h] <;>
      refine ⟨?_, ?_, rfl, rfl, rfl⟩ <;>
      simp
  · intro flt now st
    rcases cleanup_stats_cases flt now st with h | h <;> rw [h] <;>
      exact ⟨rfl, rfl, rfl, rfl⟩
  · intro now st
    unfold cleanup
    rw [cleanupLoop_noFaults]
    simp only [noCleanupFaults, Bool.false_eq_true, if_false, if_true]
    split
    · simp [saveStats_stats]
    · rename_i hc
      simp only [not_lt, Nat.le_zero] at hc
      simp [hc]
  · intro now st
    unfold CacheService.clear
    simp only [noClearFaults]
    rw [clearLoop_noFaults]
    simp [saveStats_stats]

open CacheService in
/-- C1: no Cache Store operation propagates an internal I/O or parse
error.  A `get` hitting any injected fault (file read, JSON parse, or
the hit-count rewrite) returns `null`, counts a miss and leaves the
entry files untouched; a failed `set` write leaves the state exactly as
it was; a failed `readdir` makes `clear` a no-op, and a mid-loop
`unlink` failure leaves the stats and `stats.json` untouched; and
`cleanup` always returns exactly the number of files it actually
removed before any fault, under every fault pattern. -/
theorem cache_ops_absorb_errors {α : Type} :
    (∀ (hash : String → String) (flt : GetFaults) (q : String)
        (params : List (String × JsonValue)) (now : Nat) (st : CacheState α),
        flt.readFails = true ∨ flt.parseFails = true ∨ flt.writeFails = true →
        (get hash flt q params now st).1 = none
      ∧ ((get hash flt q params now st).2).stats.totalMisses
          = st.stats.totalMisses + 1
      ∧ ((get hash flt q params now st).2).entries = st.entries)
    ∧ (∀ (hash : String → String) (flt : SetFaults) (q : String)
        (params : List (String × JsonValue)) (r : α) (m : String)
        (pt ttl now : Nat) (st : CacheState α),
        flt.writeFails = true → set hash flt q params r m pt ttl now st = st)
    ∧ (∀ (flt : ClearFaults) (now : Nat) (st : CacheState α),
        flt.readdirFails = true → clear flt now st = st)
    ∧ (∀ (flt : ClearFaults) (now : Nat) (st : CacheState α),
        flt.readdirFails = false →
        (clearLoop flt.unlinkFails st.entries).2 = false →
        (clear flt now st).stats = st.stats
      ∧ (clear flt now st).statsFile = st.statsFile)
    ∧ (∀ (flt : CleanupFaults) (now : Nat) (st : CacheState α),
        (cleanup flt now st).1
          = st.entries.length - ((cleanup flt now st).2).entries.length) := by
  refine ⟨?_, ?_, ?_, ?_, ?_⟩
  · intro hash flt q params now st hf
    unfold CacheService.get CacheService.getMissPath
    rcases hfe : findEntry (generateKey hash q params) st.entries with _ | entry
    · simp [hfe, saveStats_stats, saveStats_entries]
    · by_cases h1 : (flt.readFails || flt.parseFails) = true
      · simp [hfe, h1, saveStats_stats, saveStats_entries]
      · have h3 : flt.writeFails = true := by
          rcases hf with h | h | h
          · simp [h] at h1
          · simp [h] at h1
          · exact h
        by_cases h2 : now > entry.expiresAt
        · simp [hfe, h1, h2, saveStats_stats, saveStats_entries]
        · simp [hfe, h1, h2, h3, saveStats_stats, saveStats_entries]
  · intro hash flt q params r m pt ttl now st hw
    unfold CacheService.set
    simp [hw]
  · intro flt now st hr
    unfold CacheService.clear
    simp [hr]
  · intro flt now st hr hl
    unfold CacheService.clear
    simp [hr, hl]
  · intro flt now st
    unfold CacheService.cleanup
    by_cases hr : flt.readdirFails = true
    · simp [hr]
    · have hlen := cleanupLoop_len flt now st.entries
      simp only [hr, Bool.false_eq_true, if_false]
      split
      · split
        · simp only [saveStats_entries]
          omega
        · simp only []
          omega
      · simp only []
        omega

/-- Witness for C1: each fault pattern exercised on a small concrete
state — a read fault during `get` (miss, counter bumped, files intact),
a write fault during `set` (state unchanged), a `readdir` fault during
`clear` (no-op), an `unlink` fault during `clear` (stats and
`stats.json` untouched), and a read fault during `cleanup` (returns the
0 files it removed before the fault). -/
theorem cache_ops_absorb_errors_witness :
    ((CacheService.get id
        { readFails := true, parseFails := false, writeFails := false,
          statsWriteFails := false } "q" [] 0
        { entries := [], statsFile := none,
          stats := CacheService.freshStats 0 }).1 = (none : Option Int)
      ∧ ((CacheService.get id
          { readFails := true, parseFails := false, writeFails := false,
            statsWriteFails := false } "q" [] 0
          ({ entries := [], statsFile := none,
             stats := CacheService.freshStats 0 }
            : CacheService.CacheState Int)).2).stats.totalMisses
        = (CacheService.freshStats 0).totalMisses + 1
      ∧ ((CacheService.get id
          { readFails := true, parseFails := false, writeFails := false,
            statsWriteFails := false } "q" [] 0
          ({ entries := [], statsFile := none,
             stats := CacheService.freshStats 0 }
            : CacheService.CacheState Int)).2).entries = [])
    ∧ CacheService.set id
        { writeFails := true, statsWriteFails := false } "q" [] (7 : Int)
        "sonar" 5 24 0
        { entries := [], statsFile := none,
          stats := CacheService.freshStats 0 }
      = { entries := [], statsFile := none,
          stats := CacheService.freshStats 0 }
    ∧ CacheService.clear
        { readdirFails := true, unlinkFails := fun _ => false,
          statsWriteFails := false } 0
        ({ entries := [], statsFile := none,
           stats := CacheService.freshStats 0 } : CacheService.CacheState Int)
      = { entries := [], statsFile := none,
          stats := CacheService.freshStats 0 }
    ∧ ((CacheService.clear
          { readdirFails := false, unlinkFails := fun _ => true,
            statsWriteFails := false } 0
          { entries := [("k",
              { key := "k", query := "q", params := [],
                response := (0 : Int), timestamp := 0, expiresAt := 5,
                hits := 0, modelUsed := "sonar", processingTime := 0 })],
            statsFile := none,
            stats := CacheService.freshStats 0 }).stats
        = CacheService.freshStats 0
      ∧ (CacheService.clear
          { readdirFails := false, unlinkFails := fun _ => true,
            statsWriteFails := false } 0
          { entries := [("k",
              { key := "k", query := "q", params := [],
                response := (0 : Int), timestamp := 0, expiresAt := 5,
                hits := 0, modelUsed := "sonar", processingTime := 0 })],
            statsFile := none,
            stats := CacheService.freshStats 0 }).statsFile = none)
    ∧ (CacheService.cleanup
        { readdirFails := false, readFails := fun _ => true,
          parseFails := fun _ => false, unlinkFails := fun _ => false,
          statsWriteFails := false } 10
        { entries := [("k",
            { key := "k", query := "q", params := [],
              response := (0 : Int), timestamp := 0, expiresAt := 5,
              hits := 0, modelUsed := "sonar", processingTime := 0 })],
          statsFile := none,
          stats := CacheService.freshStats 0 }).1
      = [("k",
          ({ key := "k", query := "q", params := [],
             response := (0 : Int), timestamp := 0, expiresAt := 5,
             hits := 0, modelUsed := "sonar",
             processingTime := 0 } : CacheService.CacheEntry Int))].length
        - ((CacheService.cleanup
            { readdirFails := false, readFails := fun _ => true,
              parseFails := fun _ => false, unlinkFails := fun _ => false,
              statsWriteFails := false } 10
            { entries := [("k",
                { key := "k", query := "q", params := [],
                  response := (0 : Int), timestamp := 0, expiresAt := 5,
                  hits := 0, modelUsed := "sonar",
                  processingTime := 0 })],
              statsFile := none,
              stats := CacheService.freshStats 0 }).2).entries.length := by
  obtain ⟨h1, h2, h3, h4, h5⟩ := @cache_ops_absorb_errors Int
  exact ⟨h1 id
      { readFails := true, parseFails := false, writeFails := false,
        statsWriteFails := false } "q" [] 0
      { entries := [], statsFile := none,
        stats := CacheService.freshStats 0 } (Or.inl rfl),
    h2 id { writeFails := true, statsWriteFails := false } "q" [] 7 "sonar"
      5 24 0
      { entries := [], statsFile := none,
        stats := CacheService.freshStats 0 } rfl,
    h3 { readdirFails := true, unlinkFails := fun _ => false,
         statsWriteFails := false } 0
      { entries := [], statsFile := none,
        stats := CacheService.freshStats 0 } rfl,
    h4 { readdirFails := false, unlinkFails := fun _ => true,
         statsWriteFails := false } 0
      { entries := [("k",
          { key := "k", query := "q", params := [],
            response := (0 : Int), timestamp := 0, expiresAt := 5,
            hits := 0, modelUsed := "sonar", processingTime := 0 })],
        statsFile := none,
        stats := CacheService.freshStats 0 } rfl rfl,
    h5 { readdirFails := false, readFails := fun _ => true,
         parseFails := fun _ => false, unlinkFails := fun _ => false,
         statsWriteFails := false } 10
      { entries := [("k",
          { key := "k", query := "q", params := [],
            response := (0 : Int), timestamp := 0, expiresAt := 5,
            hits := 0, modelUsed := "sonar", processingTime := 0 })],
        statsFile := none,
        stats := CacheService.freshStats 0 }⟩
